import Mathlib

/-!
Shallow embedding of the two SCB data-pull pipelines
(`src/Python_pull/1_SCBdirect_estimate.py` and
`src/Python_pull/2_SCBpopDensity.py`).

Each script is a linear flow: load a JSON config, issue one HTTP POST,
branch on the declared response format, and either normalize a CSV
response (rename/select columns, clean the region-name column, write a
CSV file) or write the raw PX response to disk.  Both scripts are
instances of one parameterized pipeline (`runP` below) differing only in
URL, column maps, case-sensitivity of the suffix regex, output filename,
messages, and the point at which the output directory is created.

Strings are Unicode `String`s; the regex operations of the source are
embedded as the exact functions they compute on the cell values that can
occur (cells produced by splitting a response body on line and field
separators, hence never containing a line terminator; `$` is therefore
end-of-string).
-/

namespace SAE

/-- The whitespace characters matched by the regex class `\s` and stripped
by Python `str.strip()` (ASCII fragment; the cell values of this
development are ASCII-plus-symbols, with no exotic Unicode spaces). -/
def isSpaceChar (c : Char) : Bool :=
  c = ' ' || c = '\t' || c = '\n' || c = '\r' || c = '\x0b' || c = '\x0c'

/-- The characters matched by the regex class `\d` (decimal digits). -/
def isDigitChar (c : Char) : Bool := c.isDigit

/-- Embedding of `re.sub(r"^\d+\s+", "", s)`: with the `^` anchor the pattern can match
only at position 0, so the substitution removes at most one occurrence:
the maximal leading run of digits together with the maximal following run
of whitespace, provided both runs are non-empty; otherwise the string is
unchanged. -/
def stripLeadingNum (s : String) : String :=
  let cs := s.toList
  let ds := cs.takeWhile isDigitChar
  let r1 := cs.dropWhile isDigitChar
  let ws := r1.takeWhile isSpaceChar
  if ds.isEmpty || ws.isEmpty then s else String.mk (r1.dropWhile isSpaceChar)

/-- Lower-casing of a character list (Python `str.lower` restricted to the
ASCII letters, which is all the format strings and the word `county`
involve). -/
def lowerStr (cs : List Char) : List Char := cs.map Char.toLower

/-- Embedding of `re.sub(r"\scounty$", "", s)` (with `flags=re.IGNORECASE` when
`ci = true`): the pattern is anchored at the end, so at most one
occurrence — a single whitespace character followed by the six letters of
`county` — is removed.  (`$` in Python also matches before a trailing
newline; the cell values this is applied to come from splitting on line
separators and never contain one, so end-of-string is the faithful
reading on this domain.) -/
def stripCountySuffix (ci : Bool) (s : String) : String :=
  let cs := s.toList
  let n := cs.length
  match cs.drop (n - 7) with
  | c :: rest =>
    if 7 ≤ n && isSpaceChar c
        && ((if ci then lowerStr rest else rest) == "county".toList) then
      String.mk (cs.take (n - 7))
    else s
  | [] => s

/-- Leading-whitespace trim on character lists. -/
def trimStart (cs : List Char) : List Char := cs.dropWhile isSpaceChar

/-- Trailing-whitespace trim on character lists. -/
def trimEnd (cs : List Char) : List Char :=
  (cs.reverse.dropWhile isSpaceChar).reverse

/-- Python `str.strip()`: remove leading and trailing whitespace. -/
def pyStrip (s : String) : String := String.mk (trimEnd (trimStart s.toList))

/-- The full cleaning chain applied to the `County` column:
`.str.replace(r"^\d+\s+", "", regex=True)`, then
`.str.replace(r"\scounty$", "", regex=True[, flags=re.IGNORECASE])`,
then `.str.strip()`.  `ci` selects the `IGNORECASE` variant (used by the
population-density pipeline; the direct-estimate pipeline passes no
flags). -/
def cleanCounty (ci : Bool) (s : String) : String :=
  pyStrip (stripCountySuffix ci (stripLeadingNum s))

/-- The value starts with a decimal digit (hence with a leading
digit-sequence). -/
def startsWithDigitSeq (s : String) : Bool :=
  match s.toList with
  | c :: _ => isDigitChar c
  | [] => false

/-- The value ends with the qualifier word `county` preceded by a
whitespace character. -/
def hasTrailingCounty (s : String) : Bool :=
  let cs := s.toList
  let n := cs.length
  match cs.drop (n - 7) with
  | c :: rest => 7 ≤ n && isSpaceChar c && (rest == "county".toList)
  | [] => false

/-- The value has leading or trailing whitespace. -/
def hasEdgeWhitespace (s : String) : Bool :=
  (match s.toList.head? with | some c => isSpaceChar c | none => false)
  || (match s.toList.getLast? with | some c => isSpaceChar c | none => false)

/-! ## JSON values

The configs are read by `json.load`; the parts of the JSON universe the
pipelines touch — the config object, the query payload, the nested
`response.format` declaration, and the table identifier — are objects and
strings, so the value type carries those two constructors.  `json.load`
returns a dict, so object keys are unique and association-list lookup
(first match) coincides with dict lookup. -/

inductive Json where
  | obj : List (String × Json) → Json
  | str : String → Json

/-- Python subscripting / `dict.get` on a parsed JSON value: key lookup on
an object; a string has no keys (Python raises on `s["k"]` and has no
`.get`, which the pipeline surfaces as an error — see `runP`). -/
def Json.getOpt : Json → String → Option Json
  | .obj kvs, k => kvs.lookup k
  | .str _, _ => none

mutual

/-- Python `repr` of a parsed JSON value (used by `str()` on containers). -/
def pyRepr : Json → String
  | .str s => "\x27" ++ s ++ "\x27"
  | .obj kvs => "\x7b" ++ pyReprFields kvs ++ "\x7d"

/-- Python `repr` of a dict, field by field. -/
def pyReprFields : List (String × Json) → String
  | [] => ""
  | [(k, v)] => "\x27" ++ k ++ "\x27: " ++ pyRepr v
  | (k, v) :: kv :: rest =>
      "\x27" ++ k ++ "\x27: " ++ pyRepr v ++ ", " ++ pyReprFields (kv :: rest)

end

/-- Python `str()` as used by an f-string substitution: a string is
inserted verbatim, a dict via its `repr`. -/
def pyStr : Json → String
  | .str s => s
  | .obj kvs => pyRepr (.obj kvs)

/-- Embedding of `payload.get("response", {}).get("format", "").lower()`.  `none`
models the `AttributeError` raised when `payload` or an intermediate
value is a string rather than a dict (the `.get` / `.lower` call then has
no such attribute). -/
def fmtOf (payload : Json) : Option String :=
  match payload with
  | .str _ => none
  | .obj kvs =>
    match (kvs.lookup "response").getD (.obj []) with
    | .str _ => none
    | .obj rkvs =>
      match (rkvs.lookup "format").getD (.str "") with
      | .str s => some (String.mk (lowerStr s.toList))
      | .obj _ => none

/-! ## Tables (the pandas fragment the scripts use) -/

/-- A parsed delimited-text table: a header row of column names and the
data rows (cells as strings; the numeric round-trip
`read_csv`/`to_csv` performs on measure columns is the identity on their
textual form). -/
structure Table where
  header : List String
  rows : List (List String)
deriving DecidableEq

/-- Split a character list at every occurrence of a separator. -/
def splitListOn (sep : Char) : List Char → List (List Char)
  | [] => [[]]
  | c :: rest =>
    let r := splitListOn sep rest
    if c = sep then [] :: r
    else
      match r with
      | h :: t => (c :: h) :: t
      | [] => [[c]]

/-- The lines of a response body (`read_csv` default: blank lines are
skipped, so a trailing newline contributes no row). -/
def splitLines (s : String) : List String :=
  ((splitListOn '\n' s.toList).map String.mk).filter (fun l => !(l == ""))

/-- The comma-separated cells of one line (`sep=","`; the bodies in play
are unquoted). -/
def splitCells (line : String) : List String :=
  (splitListOn ',' line.toList).map String.mk

/-- The `read_csv` deduplication of repeated header names: the `k`-th
repetition of a name gains a `.k` suffix. -/
def mangleHeader : List String → List String → List String
  | _, [] => []
  | seen, c :: rest =>
    let k := (seen.filter (fun x => x == c)).length
    (if k = 0 then c else c ++ "." ++ toString k) :: mangleHeader (c :: seen) rest

/-- Embedding of `pd.read_csv(StringIO(body), sep=",")`: first non-blank line is the
header (with duplicate names deduplicated), remaining lines are rows.
`none` models a parse failure (empty input, or a ragged row — pandas
raises on rows with extra fields; rows with missing fields are padded
with nulls, a case collapsed into the failure outcome here since no run
in this development produces one). -/
def parseCsv (body : String) : Option Table :=
  match splitLines body with
  | [] => none
  | h :: rs =>
    let header := mangleHeader [] (splitCells h)
    let rows := rs.map splitCells
    if rows.all (fun r => r.length == header.length) then some ⟨header, rows⟩
    else none

/-- Embedding of `df.rename(columns=m)`: every header name in the mapping is replaced,
others are untouched; mapping keys that name no column are ignored. -/
def renameCols (m : List (String × String)) (t : Table) : Table :=
  ⟨t.header.map (fun c => ((m.lookup c).getD c)), t.rows⟩

/-- Index of a column name in a header (first occurrence). -/
def idxOfCol (c : String) (hs : List String) : Nat :=
  (hs.findIdx? (fun h => h == c)).getD 0

/-- Embedding of `df[[c1, …, ck]]`: project onto the named columns in the given order;
`none` models the `KeyError` raised when one of them is absent. -/
def selectCols (cols : List String) (t : Table) : Option Table :=
  if ∀ c ∈ cols, c ∈ t.header then
    some ⟨cols, t.rows.map (fun r => cols.map (fun c => r.getD (idxOfCol c t.header) ""))⟩
  else none

/-- Embedding of a whole-column assignment `df[c] = f(df[c])`: replace the named column by
its image under `f` (no-op when the column is absent). -/
def mapCol (c : String) (f : String → String) (t : Table) : Table :=
  if c ∈ t.header then
    ⟨t.header,
     t.rows.map (fun r => r.set (idxOfCol c t.header) (f (r.getD (idxOfCol c t.header) "")))⟩
  else t

/-- The values of a named column, row by row. -/
def colValues (c : String) (t : Table) : List String :=
  if c ∈ t.header then t.rows.map (fun r => r.getD (idxOfCol c t.header) "")
  else []

/-- Join strings with a separator. -/
def joinWith (sep : String) : List String → String
  | [] => ""
  | [x] => x
  | x :: y :: rest => x ++ sep ++ joinWith sep (y :: rest)

/-- Embedding of `df.to_csv(path, index=False)`: the header line then each row, every
line newline-terminated, cells comma-joined. -/
def toCsv (t : Table) : String :=
  joinWith "," t.header ++ "\n"
    ++ String.join (t.rows.map (fun r => joinWith "," r ++ "\n"))

/-! ## The pipeline -/

/-- The error taxonomy of the spec, plus the two Python-level failures the
scripts can also hit (`typeError` for an `AttributeError` while reading
the format string, `parseError` for a `read_csv` failure). -/
inductive PipeError where
  | configError
  | transportError
  | typeError
  | parseError
  | schemaError
deriving DecidableEq

/-- The observable side effects of a run, in program order. -/
inductive Event where
  | netPost (url : String) (payload : Json)
  | mkdirP (dir : String)
  | fileWrite (path : String) (content : String)
  | printOut (msg : String)
  | printSaved (path : String)

/-- Outcome of a run: the side effects it performed, and the uncaught
error that terminated it, if any. -/
structure RunResult where
  events : List Event
  error : Option PipeError

/-- The response to the single HTTP POST: final status code and body
text. -/
structure Fetched where
  status : Nat
  text : String

/-- The per-dataset parameters in which the two scripts differ. -/
structure PipeConf where
  baseUrl : String
  renameMap : List (String × String)
  outCols : List String
  ciSuffix : Bool
  outFile : String
  mkdirBeforeDispatch : Bool
  unknownMsg : String

/-- The CSV branch up to the cleaned table: `read_csv`, then
`rename(columns=…)[[outCols]]`, then the `County` cleaning chain. -/
def csvNormalize (pc : PipeConf) (body : String) : Except PipeError Table :=
  match parseCsv body with
  | none => .error .parseError
  | some t =>
    match selectCols pc.outCols (renameCols pc.renameMap t) with
    | none => .error .schemaError
    | some t2 => .ok (mapCol "County" (cleanCounty pc.ciSuffix) t2)

/-- One pipeline run.  `cfg?` is the parsed config file (`none`: the file
is missing or not valid JSON — `json.load` raises).  `resp?` is the fetch
outcome (`none`: the transport failed before a response was obtained).
The event list follows the statement order of the scripts: config
subscripting before the POST; `raise_for_status` (4xx/5xx) right after;
then the format string is read from the payload; the direct-estimate
script creates `data/` before the dispatch while the population-density
script creates it inside the `csv` and `px` branches just before
writing — on a successful write the two orderings produce the same event
sequence, so the `mkdirBeforeDispatch` flag is only visible on the
failing-normalize and unknown-format paths. -/
def runP (pc : PipeConf) (cfg? : Option Json) (resp? : Option Fetched) : RunResult :=
  match cfg? with
  | none => ⟨[], some .configError⟩
  | some cfg =>
    match cfg.getOpt "queryObj", cfg.getOpt "tableIdForQuery" with
    | some payload, some tid =>
      let post := Event.netPost (pc.baseUrl ++ pyStr tid) payload
      match resp? with
      | none => ⟨[post], some .transportError⟩
      | some r =>
        if 400 ≤ r.status ∧ r.status < 600 then ⟨[post], some .transportError⟩
        else
          match fmtOf payload with
          | none => ⟨[post], some .typeError⟩
          | some fmt =>
            let pre := if pc.mkdirBeforeDispatch then [post, Event.mkdirP "data"] else [post]
            if fmt = "csv" then
              match csvNormalize pc r.text with
              | .error e => ⟨pre, some e⟩
              | .ok t =>
                let path := "data/" ++ pc.outFile
                ⟨[post, Event.mkdirP "data",
                  Event.fileWrite path (toCsv t), Event.printSaved path], none⟩
            else if fmt = "px" then
              let path := "data/" ++ pyStr tid ++ ".px"
              ⟨[post, Event.mkdirP "data",
                Event.fileWrite path r.text, Event.printSaved path], none⟩
            else
              ⟨pre ++ [Event.printOut pc.unknownMsg, Event.printOut r.text], none⟩
    | _, _ => ⟨[], some .configError⟩

/-- Parameters of `1_SCBdirect_estimate.py`. -/
def conf1 : PipeConf where
  baseUrl := "https://api.scb.se/OV0104/v1/doris/en/ssd/START/AM/AM0401/AM0401N/"
  renameMap := [("region", "County"),
                ("Percent 2025K1", "Percent_2025K1"),
                ("Margin of error ± percent 2025K1", "Percent_2025K1_me")]
  outCols := ["County", "Percent_2025K1", "Percent_2025K1_me"]
  ciSuffix := false
  outFile := "direct_estimates.csv"
  mkdirBeforeDispatch := true
  unknownMsg := "⚠️ Response format not recognized. Here is the raw text:"

/-- Parameters of `2_SCBpopDensity.py`. -/
def conf2 : PipeConf where
  baseUrl := "https://api.scb.se/OV0104/v1/doris/en/ssd/START/BE/BE0101/BE0101C/"
  renameMap := [("region", "County"),
                ("Population density per sq. km 2024", "PopDensity_2024")]
  outCols := ["County", "PopDensity_2024"]
  ciSuffix := true
  outFile := "popdensity.csv"
  mkdirBeforeDispatch := false
  unknownMsg := "Response format not recognized. Here\x27s the raw text:"

/-! ## Projections of a run's effects -/

/-- The files a run wrote, with their contents, in order. -/
def writtenFiles (res : RunResult) : List (String × String) :=
  res.events.filterMap (fun e =>
    match e with
    | .fileWrite p c => some (p, c)
    | _ => none)

/-- The lines a run printed to standard output (warnings and raw bodies;
the success message is the separate `printSaved` event). -/
def printedLines (res : RunResult) : List String :=
  res.events.filterMap (fun e =>
    match e with
    | .printOut m => some m
    | _ => none)

/-- The directories a run created (idempotently, parents included). -/
def madeDirs (res : RunResult) : List String :=
  res.events.filterMap (fun e =>
    match e with
    | .mkdirP d => some d
    | _ => none)

/-- The URLs a run POSTed to, in order. -/
def postedUrls (res : RunResult) : List String :=
  res.events.filterMap (fun e =>
    match e with
    | .netPost u _ => some u
    | _ => none)

/-- The query payload of the run's config file, when it has one. -/
def cfgPayload (cfg? : Option Json) : Option Json :=
  match cfg? with
  | some c => c.getOpt "queryObj"
  | none => none

/-- A well-formed config for these pipelines: a `queryObj` whose payload
declares the given response format, and a string table identifier. -/
def mkCfg (fmt tid : String) : Json :=
  .obj [("queryObj", .obj [("response", .obj [("format", .str fmt)])]),
        ("tableIdForQuery", .str tid)]

/-- The direct-estimate CSV response used to exercise the cleaning chain:
one region value with two digit-runs and one ending in a doubled
qualifier word. -/
def demoBadBody : String :=
  "region,Percent 2025K1,Margin of error ± percent 2025K1\n12 34 Foo,1,2\n01 Stockholm county county,3,4\n"

/-- The response body of the spec scenario for the direct-estimate
pipeline. -/
def demoScenarioBody : String :=
  "region,Percent 2025K1,Margin of error ± percent 2025K1\n01 Stockholm county,45.2,1.1\n"

/-- A CSV body whose header already carries the target column names: every
expected source column (`region` and the measure columns) is absent. -/
def c6Body : String := "County,Percent_2025K1,Percent_2025K1_me\nStockholm,1,2\n"

/-! ## Invariants of the cleaning chain -/

theorem toList_mk (l : List Char) : (String.mk l).toList = l := rfl

theorem head?_dropWhile_false (p : Char → Bool) (l : List Char) (c : Char)
    (h : (l.dropWhile p).head? = some c) : p c = false := by
  have h2 := List.head?_dropWhile_not p l
  rw [h] at h2
  simpa using h2

theorem getLast?_dropWhile_of_ne_nil (p : Char → Bool) (l : List Char)
    (h : l.dropWhile p ≠ []) : (l.dropWhile p).getLast? = l.getLast? := by
  obtain ⟨t, ht⟩ := List.dropWhile_suffix p (l := l)
  have h2 := List.getLast?_append_of_ne_nil t h
  rw [ht] at h2
  exact h2.symm

theorem trimEnd_getLast?_false (z : List Char) (c : Char)
    (h : (trimEnd z).getLast? = some c) : isSpaceChar c = false := by
  unfold trimEnd at h
  rw [List.getLast?_reverse] at h
  exact head?_dropWhile_false isSpaceChar z.reverse c h

theorem trim_head?_false (cs : List Char) (c : Char)
    (h : (trimEnd (trimStart cs)).head? = some c) : isSpaceChar c = false := by
  unfold trimEnd at h
  rw [List.head?_reverse] at h
  have hne : (trimStart cs).reverse.dropWhile isSpaceChar ≠ [] := by
    intro h0
    rw [h0] at h
    simp at h
  rw [getLast?_dropWhile_of_ne_nil _ _ hne, List.getLast?_reverse] at h
  exact head?_dropWhile_false isSpaceChar cs c h

/-- The final `.str.strip()` guarantees: a stripped value never carries
leading or trailing whitespace. -/
theorem hasEdgeWhitespace_pyStrip (s : String) :
    hasEdgeWhitespace (pyStrip s) = false := by
  have hl : (pyStrip s).toList = trimEnd (trimStart s.toList) := rfl
  unfold hasEdgeWhitespace
  rw [hl]
  have hA : (match (trimEnd (trimStart s.toList)).head? with
      | some c => isSpaceChar c | none => false) = false := by
    cases h : (trimEnd (trimStart s.toList)).head? with
    | none => rfl
    | some c => exact trim_head?_false s.toList c h
  have hB : (match (trimEnd (trimStart s.toList)).getLast? with
      | some c => isSpaceChar c | none => false) = false := by
    cases h : (trimEnd (trimStart s.toList)).getLast? with
    | none => rfl
    | some c => exact trimEnd_getLast?_false (trimStart s.toList) c h
  rw [hA, hB]
  rfl

/-- Every cleaned region name is free of surrounding whitespace. -/
theorem hasEdgeWhitespace_cleanCounty (ci : Bool) (s : String) :
    hasEdgeWhitespace (cleanCounty ci s) = false :=
  hasEdgeWhitespace_pyStrip (stripCountySuffix ci (stripLeadingNum s))

theorem cleanCounty_empty (ci : Bool) : cleanCounty ci "" = "" := by
  cases ci <;> rfl

theorem getD_set_self (l : List String) (i : Nat) (x d : String)
    (h : i < l.length) : (l.set i x).getD i d = x := by
  simp [List.getD, List.getElem?_set_self, h]

/-- Every value of the `County` column of the cleaned table is the image
of some raw value under the cleaning chain. -/
theorem mem_colValues_mapCol_clean (ci : Bool) (t : Table) (v : String)
    (hv : v ∈ colValues "County" (mapCol "County" (cleanCounty ci) t)) :
    ∃ raw, v = cleanCounty ci raw := by
  unfold mapCol at hv
  by_cases hc : "County" ∈ t.header
  · rw [if_pos hc] at hv
    unfold colValues at hv
    rw [if_pos hc] at hv
    rw [List.map_map, List.mem_map] at hv
    obtain ⟨r, _, rfl⟩ := hv
    by_cases hlen : idxOfCol "County" t.header < r.length
    · refine ⟨r.getD (idxOfCol "County" t.header) "", ?_⟩
      simp only [Function.comp_apply]
      rw [getD_set_self _ _ _ _ hlen]
    · refine ⟨"", ?_⟩
      simp only [Function.comp_apply]
      rw [List.set_eq_of_length_le (Nat.le_of_not_lt hlen),
        List.getD_eq_default _ _ (Nat.le_of_not_lt hlen), cleanCounty_empty]
  · rw [if_neg hc] at hv
    unfold colValues at hv
    rw [if_neg hc] at hv
    exact absurd hv (List.not_mem_nil v)

/-! ## Path characterizations of a run -/

theorem runP_no_config (pc : PipeConf) (resp? : Option Fetched) :
    runP pc none resp? = ⟨[], some .configError⟩ := rfl

theorem runP_missing_field (pc : PipeConf) (cfg : Json) (resp? : Option Fetched)
    (h : cfg.getOpt "queryObj" = none ∨ cfg.getOpt "tableIdForQuery" = none) :
    runP pc (some cfg) resp? = ⟨[], some .configError⟩ := by
  simp only [runP]
  rcases h with h | h
  · rw [h]
  · rw [h]
    cases cfg.getOpt "queryObj" <;> rfl

theorem runP_transport_fail (pc : PipeConf) (cfg payload tid : Json)
    (hq : cfg.getOpt "queryObj" = some payload)
    (ht : cfg.getOpt "tableIdForQuery" = some tid) :
    runP pc (some cfg) none =
      ⟨[Event.netPost (pc.baseUrl ++ pyStr tid) payload], some .transportError⟩ := by
  simp only [runP]
  rw [hq, ht]

theorem runP_http_error (pc : PipeConf) (cfg payload tid : Json) (r : Fetched)
    (hq : cfg.getOpt "queryObj" = some payload)
    (ht : cfg.getOpt "tableIdForQuery" = some tid)
    (hbad : 400 ≤ r.status ∧ r.status < 600) :
    runP pc (some cfg) (some r) =
      ⟨[Event.netPost (pc.baseUrl ++ pyStr tid) payload], some .transportError⟩ := by
  simp only [runP]
  rw [hq, ht]
  simp only [if_pos hbad]

theorem runP_unknown_fmt (pc : PipeConf) (cfg payload tid : Json) (r : Fetched)
    (f : String)
    (hq : cfg.getOpt "queryObj" = some payload)
    (ht : cfg.getOpt "tableIdForQuery" = some tid)
    (hok : ¬(400 ≤ r.status ∧ r.status < 600))
    (hfmt : fmtOf payload = some f) (hf1 : f ≠ "csv") (hf2 : f ≠ "px") :
    runP pc (some cfg) (some r) =
      ⟨(if pc.mkdirBeforeDispatch then
          [Event.netPost (pc.baseUrl ++ pyStr tid) payload, Event.mkdirP "data"]
        else [Event.netPost (pc.baseUrl ++ pyStr tid) payload])
        ++ [Event.printOut pc.unknownMsg, Event.printOut r.text], none⟩ := by
  simp only [runP]
  rw [hq, ht]
  simp only [if_neg hok, hfmt, if_neg hf1, if_neg hf2]

theorem runP_csv_error (pc : PipeConf) (cfg payload tid : Json) (r : Fetched)
    (e : PipeError)
    (hq : cfg.getOpt "queryObj" = some payload)
    (ht : cfg.getOpt "tableIdForQuery" = some tid)
    (hok : ¬(400 ≤ r.status ∧ r.status < 600))
    (hfmt : fmtOf payload = some "csv")
    (hn : csvNormalize pc r.text = .error e) :
    runP pc (some cfg) (some r) =
      ⟨(if pc.mkdirBeforeDispatch then
          [Event.netPost (pc.baseUrl ++ pyStr tid) payload, Event.mkdirP "data"]
        else [Event.netPost (pc.baseUrl ++ pyStr tid) payload]), some e⟩ := by
  simp only [runP]
  rw [hq, ht]
  simp only [if_neg hok, hfmt, if_pos rfl, hn]
  rfl

theorem runP_csv_ok (pc : PipeConf) (cfg payload tid : Json) (r : Fetched)
    (t : Table)
    (hq : cfg.getOpt "queryObj" = some payload)
    (ht : cfg.getOpt "tableIdForQuery" = some tid)
    (hok : ¬(400 ≤ r.status ∧ r.status < 600))
    (hfmt : fmtOf payload = some "csv")
    (hn : csvNormalize pc r.text = .ok t) :
    runP pc (some cfg) (some r) =
      ⟨[Event.netPost (pc.baseUrl ++ pyStr tid) payload, Event.mkdirP "data",
        Event.fileWrite ("data/" ++ pc.outFile) (toCsv t),
        Event.printSaved ("data/" ++ pc.outFile)], none⟩ := by
  simp only [runP]
  rw [hq, ht]
  simp only [if_neg hok, hfmt, if_pos rfl, hn]
  rfl

theorem runP_px (pc : PipeConf) (cfg payload tid : Json) (r : Fetched)
    (hq : cfg.getOpt "queryObj" = some payload)
    (ht : cfg.getOpt "tableIdForQuery" = some tid)
    (hok : ¬(400 ≤ r.status ∧ r.status < 600))
    (hfmt : fmtOf payload = some "px") :
    runP pc (some cfg) (some r) =
      ⟨[Event.netPost (pc.baseUrl ++ pyStr tid) payload, Event.mkdirP "data",
        Event.fileWrite ("data/" ++ pyStr tid ++ ".px") r.text,
        Event.printSaved ("data/" ++ pyStr tid ++ ".px")], none⟩ := by
  simp only [runP]
  rw [hq, ht]
  simp only [if_neg hok, hfmt,
    if_neg (show ("px" : String) ≠ "csv" by decide), if_pos rfl]
  rfl

/-- Observable effects of the unrecognized-format fallback path: no error,
no file written, the warning and the raw body printed. -/
theorem fallback_effects (pc : PipeConf) (cfg payload tid : Json) (r : Fetched)
    (f : String)
    (hq : cfg.getOpt "queryObj" = some payload)
    (ht : cfg.getOpt "tableIdForQuery" = some tid)
    (hok : ¬(400 ≤ r.status ∧ r.status < 600))
    (hfmt : fmtOf payload = some f) (hf1 : f ≠ "csv") (hf2 : f ≠ "px") :
    (runP pc (some cfg) (some r)).error = none ∧
    writtenFiles (runP pc (some cfg) (some r)) = [] ∧
    printedLines (runP pc (some cfg) (some r)) = [pc.unknownMsg, r.text] := by
  rw [runP_unknown_fmt pc cfg payload tid r f hq ht hok hfmt hf1 hf2]
  refine ⟨rfl, ?_, ?_⟩ <;>
    by_cases hm : pc.mkdirBeforeDispatch = true <;>
      simp [writtenFiles, printedLines, hm]

/-- Reduction of the normalizer once the parse result is known. -/
theorem csvNormalize_eq (pc : PipeConf) (body : String) (t0 : Table)
    (hp : parseCsv body = some t0) :
    csvNormalize pc body =
      match selectCols pc.outCols (renameCols pc.renameMap t0) with
      | none => .error .schemaError
      | some t2 => .ok (mapCol "County" (cleanCounty pc.ciSuffix) t2) := by
  unfold csvNormalize
  rw [hp]

theorem csvNormalize_ok_shape (pc : PipeConf) (body : String) (t : Table)
    (h : csvNormalize pc body = .ok t) :
    ∃ t2, t = mapCol "County" (cleanCounty pc.ciSuffix) t2 := by
  unfold csvNormalize at h
  split at h
  · exact absurd h (by simp)
  · split at h
    · exact absurd h (by simp)
    · injection h with h2
      exact ⟨_, h2.symm⟩

/-! ## The claims -/

/-- C1 (counterexample): a CSV run of the direct-estimate pipeline whose
response contains the expected columns writes an output table whose
region-name column contains the value `34 Foo` (a leading digit-sequence
survives: the regex removes only the first digit run) and the value
`Stockholm county` (a trailing qualifier word survives: the end-anchored
regex removes only one occurrence), refuting the claim as stated. -/
theorem c1_counterexample :
    writtenFiles (runP conf1 (some (mkCfg "csv" "TAB1")) (some ⟨200, demoBadBody⟩)) =
      [("data/direct_estimates.csv",
        toCsv ⟨["County", "Percent_2025K1", "Percent_2025K1_me"],
               [["34 Foo", "1", "2"], ["Stockholm county", "3", "4"]]⟩)] ∧
    (runP conf1 (some (mkCfg "csv" "TAB1")) (some ⟨200, demoBadBody⟩)).error = none ∧
    startsWithDigitSeq "34 Foo" = true ∧
    hasTrailingCounty "Stockholm county" = true := by decide

/-- C1 (amended): in every CSV-format run of either pipeline, every value
in the region-name column of the written output table is the image of a
raw value under the cleaning chain — one leading digit-run strip, one
trailing qualifier strip, then whitespace strip — and hence carries no
leading or trailing whitespace; a leading digit-sequence or a trailing
`county` may survive the single-pass strips. -/
theorem c1_cleaned_output (pc : PipeConf) (cfg? : Option Json) (resp? : Option Fetched)
    (payload : Json) (path content : String)
    (hq : cfgPayload cfg? = some payload)
    (hfmt : fmtOf payload = some "csv")
    (hw : (path, content) ∈ writtenFiles (runP pc cfg? resp?)) :
    ∃ t : Table, content = toCsv t ∧
      ∀ v ∈ colValues "County" t,
        hasEdgeWhitespace v = false ∧ ∃ raw, v = cleanCounty pc.ciSuffix raw := by
  cases cfg? with
  | none => exact absurd hq (by simp [cfgPayload])
  | some cfg =>
    have hq2 : cfg.getOpt "queryObj" = some payload := hq
    cases htid : cfg.getOpt "tableIdForQuery" with
    | none =>
      rw [runP_missing_field pc cfg resp? (Or.inr htid)] at hw
      exact absurd hw (by simp [writtenFiles])
    | some tid =>
      cases resp? with
      | none =>
        rw [runP_transport_fail pc cfg payload tid hq2 htid] at hw
        exact absurd hw (by simp [writtenFiles])
      | some r =>
        by_cases hst : 400 ≤ r.status ∧ r.status < 600
        · rw [runP_http_error pc cfg payload tid r hq2 htid hst] at hw
          exact absurd hw (by simp [writtenFiles])
        · cases hn : csvNormalize pc r.text with
          | error e =>
            rw [runP_csv_error pc cfg payload tid r e hq2 htid hst hfmt hn] at hw
            by_cases hm : pc.mkdirBeforeDispatch = true <;>
              simp [writtenFiles, hm] at hw
          | ok t =>
            rw [runP_csv_ok pc cfg payload tid r t hq2 htid hst hfmt hn] at hw
            simp only [writtenFiles, List.filterMap] at hw
            simp at hw
            obtain ⟨t2, ht2⟩ := csvNormalize_ok_shape pc r.text t hn
            refine ⟨t, hw.2, ?_⟩
            intro v hv
            rw [ht2] at hv
            obtain ⟨raw, hraw⟩ := mem_colValues_mapCol_clean pc.ciSuffix t2 v hv
            exact ⟨by rw [hraw]; exact hasEdgeWhitespace_cleanCounty _ _, raw, hraw⟩

/-- C1 witness: the amended statement instantiated at the counterexample
run. -/
theorem c1_cleaned_output_witness :
    ∃ t : Table,
      "County,Percent_2025K1,Percent_2025K1_me\n34 Foo,1,2\nStockholm county,3,4\n"
        = toCsv t ∧
      ∀ v ∈ colValues "County" t,
        hasEdgeWhitespace v = false ∧ ∃ raw, v = cleanCounty conf1.ciSuffix raw :=
  c1_cleaned_output conf1 (some (mkCfg "csv" "TAB1")) (some ⟨200, demoBadBody⟩)
    (Json.obj [("response", Json.obj [("format", Json.str "csv")])])
    "data/direct_estimates.csv"
    "County,Percent_2025K1,Percent_2025K1_me\n34 Foo,1,2\nStockholm county,3,4\n"
    rfl (by decide) (by decide)

/-- C2: both pipelines clean the region-name column by stripping a leading
digit run with its following whitespace, then a trailing qualifier word,
then surrounding whitespace, in that order; the trailing strip is
case-sensitive in the direct-estimate pipeline and case-insensitive in
the population-density pipeline, and the two cleaning functions disagree
on `01 Stockholm County`. -/
theorem c2_cleaning_refinement :
    (∀ s, cleanCounty conf1.ciSuffix s
        = pyStrip (stripCountySuffix false (stripLeadingNum s))) ∧
    (∀ s, cleanCounty conf2.ciSuffix s
        = pyStrip (stripCountySuffix true (stripLeadingNum s))) ∧
    conf1.ciSuffix = false ∧ conf2.ciSuffix = true ∧
    cleanCounty conf1.ciSuffix "01 Stockholm County" = "Stockholm County" ∧
    cleanCounty conf2.ciSuffix "01 Stockholm County" = "Stockholm" ∧
    cleanCounty conf1.ciSuffix "01 Stockholm County"
      ≠ cleanCounty conf2.ciSuffix "01 Stockholm County" := by
  exact ⟨fun s => rfl, fun s => rfl, rfl, rfl, by decide, by decide, by decide⟩

/-- C3: the spec scenario for the direct-estimate pipeline — a CSV run on
the single-row response produces exactly the expected output file, with
header `County,Percent_2025K1,Percent_2025K1_me` and row
`Stockholm,45.2,1.1`. -/
theorem c3_csv_scenario :
    (runP conf1 (some (mkCfg "csv" "AM0401X")) (some ⟨200, demoScenarioBody⟩)).error
      = none ∧
    writtenFiles (runP conf1 (some (mkCfg "csv" "AM0401X")) (some ⟨200, demoScenarioBody⟩)) =
      [("data/direct_estimates.csv",
        "County,Percent_2025K1,Percent_2025K1_me\nStockholm,45.2,1.1\n")] := by decide

/-- C4: a config that is missing or malformed, or lacks `queryObj` or
`tableIdForQuery`, makes the pipeline fail with a `configError` before
any side effect — in particular no HTTP request is issued. -/
theorem c4_config_error_no_network (pc : PipeConf) (cfg? : Option Json)
    (resp? : Option Fetched)
    (h : cfg? = none ∨ ∃ cfg, cfg? = some cfg ∧
        (cfg.getOpt "queryObj" = none ∨ cfg.getOpt "tableIdForQuery" = none)) :
    (runP pc cfg? resp?).error = some .configError ∧
    (runP pc cfg? resp?).events = [] ∧
    postedUrls (runP pc cfg? resp?) = [] := by
  rcases h with h | ⟨cfg, rfl, h⟩
  · subst h
    exact ⟨rfl, rfl, rfl⟩
  · rw [runP_missing_field pc cfg resp? h]
    exact ⟨rfl, rfl, rfl⟩

/-- C4 witness: a config with a `queryObj` but no `tableIdForQuery`. -/
theorem c4_config_error_no_network_witness :
    (runP conf1 (some (Json.obj [("queryObj", Json.obj [])])) none).error
      = some .configError ∧
    (runP conf1 (some (Json.obj [("queryObj", Json.obj [])])) none).events = [] ∧
    postedUrls (runP conf1 (some (Json.obj [("queryObj", Json.obj [])])) none) = [] :=
  c4_config_error_no_network conf1 (some (Json.obj [("queryObj", Json.obj [])])) none
    (Or.inr ⟨Json.obj [("queryObj", Json.obj [])], rfl, Or.inr rfl⟩)

/-- C5 (counterexample): a run whose POST yields the non-2xx status 304
does not fail with a transport error — `raise_for_status` raises only for
4xx/5xx — so the claim over all non-2xx statuses is false (the run falls
through to the format dispatch and terminates without error). -/
theorem c5_counterexample :
    (304 < 200 ∨ 299 < 304) ∧
    (runP conf1 (some (mkCfg "xml" "T5")) (some ⟨304, "rawbody"⟩)).error = none ∧
    writtenFiles (runP conf1 (some (mkCfg "xml" "T5")) (some ⟨304, "rawbody"⟩)) = [] := by
  decide

/-- C5 (amended): when the transport fails or the POST yields a 4xx or 5xx
status, the run fails with a `transportError` after the single network
call, with no file written and no directory created. -/
theorem c5_transport_error (pc : PipeConf) (cfg payload tid : Json)
    (resp? : Option Fetched)
    (hq : cfg.getOpt "queryObj" = some payload)
    (ht : cfg.getOpt "tableIdForQuery" = some tid)
    (h : resp? = none ∨ ∃ r, resp? = some r ∧ 400 ≤ r.status ∧ r.status < 600) :
    (runP pc (some cfg) resp?).error = some .transportError ∧
    (runP pc (some cfg) resp?).events
      = [Event.netPost (pc.baseUrl ++ pyStr tid) payload] ∧
    writtenFiles (runP pc (some cfg) resp?) = [] ∧
    madeDirs (runP pc (some cfg) resp?) = [] := by
  rcases h with rfl | ⟨r, rfl, hbad⟩
  · rw [runP_transport_fail pc cfg payload tid hq ht]
    exact ⟨rfl, rfl, rfl, rfl⟩
  · rw [runP_http_error pc cfg payload tid r hq ht hbad]
    exact ⟨rfl, rfl, rfl, rfl⟩

/-- C5 witness: a 404 response in the population-density pipeline. -/
theorem c5_transport_error_witness :
    (runP conf2 (some (mkCfg "csv" "T5W")) (some ⟨404, "not found"⟩)).error
      = some .transportError ∧
    (runP conf2 (some (mkCfg "csv" "T5W")) (some ⟨404, "not found"⟩)).events
      = [Event.netPost (conf2.baseUrl ++ pyStr (Json.str "T5W"))
          (Json.obj [("response", Json.obj [("format", Json.str "csv")])])] ∧
    writtenFiles (runP conf2 (some (mkCfg "csv" "T5W")) (some ⟨404, "not found"⟩)) = [] ∧
    madeDirs (runP conf2 (some (mkCfg "csv" "T5W")) (some ⟨404, "not found"⟩)) = [] :=
  c5_transport_error conf2 (mkCfg "csv" "T5W")
    (Json.obj [("response", Json.obj [("format", Json.str "csv")])])
    (Json.str "T5W") (some ⟨404, "not found"⟩) rfl rfl
    (Or.inr ⟨⟨404, "not found"⟩, rfl, by decide⟩)

/-- C6 (counterexample): a CSV run of the direct-estimate pipeline whose
parsed table is missing every expected source column — its header already
carries the target names — does not fail with a schema error: `rename`
ignores absent keys and the selection finds the target names, so the run
writes an output file, refuting the claim as stated. -/
theorem c6_counterexample :
    parseCsv c6Body =
      some ⟨["County", "Percent_2025K1", "Percent_2025K1_me"], [["Stockholm", "1", "2"]]⟩ ∧
    (["region", "Percent 2025K1", "Margin of error ± percent 2025K1"].all
        (fun c => !(["County", "Percent_2025K1", "Percent_2025K1_me"].contains c))) = true ∧
    (runP conf1 (some (mkCfg "csv" "T6")) (some ⟨200, c6Body⟩)).error = none ∧
    writtenFiles (runP conf1 (some (mkCfg "csv" "T6")) (some ⟨200, c6Body⟩)) =
      [("data/direct_estimates.csv", c6Body)] := by decide

/-- C6 (amended): in a CSV-format run, when some expected output column is
absent from the parsed table even after the renaming, the normalizer
fails with a `schemaError` and no output file is written. -/
theorem c6_schema_error (pc : PipeConf) (cfg payload tid : Json) (r : Fetched)
    (t0 : Table) (c : String)
    (hq : cfg.getOpt "queryObj" = some payload)
    (ht : cfg.getOpt "tableIdForQuery" = some tid)
    (hok : ¬(400 ≤ r.status ∧ r.status < 600))
    (hfmt : fmtOf payload = some "csv")
    (hparse : parseCsv r.text = some t0)
    (hc : c ∈ pc.outCols)
    (hmiss : c ∉ (renameCols pc.renameMap t0).header) :
    (runP pc (some cfg) (some r)).error = some .schemaError ∧
    writtenFiles (runP pc (some cfg) (some r)) = [] := by
  have hsel : selectCols pc.outCols (renameCols pc.renameMap t0) = none := by
    unfold selectCols
    have hnot : ¬ ∀ x ∈ pc.outCols, x ∈ (renameCols pc.renameMap t0).header :=
      fun hall => hmiss (hall c hc)
    rw [if_neg hnot]
  have hn : csvNormalize pc r.text = .error .schemaError := by
    rw [csvNormalize_eq pc r.text t0 hparse, hsel]
  rw [runP_csv_error pc cfg payload tid r .schemaError hq ht hok hfmt hn]
  refine ⟨rfl, ?_⟩
  by_cases hm : pc.mkdirBeforeDispatch = true <;> simp [writtenFiles, hm]

/-- C6 witness: a response missing the margin-of-error column. -/
theorem c6_schema_error_witness :
    (runP conf1 (some (mkCfg "csv" "T6W"))
        (some ⟨200, "region,Percent 2025K1\n01 X county,5\n"⟩)).error
      = some .schemaError ∧
    writtenFiles (runP conf1 (some (mkCfg "csv" "T6W"))
        (some ⟨200, "region,Percent 2025K1\n01 X county,5\n"⟩)) = [] :=
  c6_schema_error conf1 (mkCfg "csv" "T6W")
    (Json.obj [("response", Json.obj [("format", Json.str "csv")])])
    (Json.str "T6W") ⟨200, "region,Percent 2025K1\n01 X county,5\n"⟩
    ⟨["region", "Percent 2025K1"], [["01 X county", "5"]]⟩ "Percent_2025K1_me"
    rfl rfl (by decide) (by decide) (by decide) (by decide) (by decide)

/-- C7: a run whose payload declares a format matching neither `csv` nor
`px` (after lower-casing) terminates without error, writes no file, and
prints the warning line followed by the raw response body. -/
theorem c7_unknown_format (pc : PipeConf) (cfg payload tid : Json) (r : Fetched)
    (f : String)
    (hq : cfg.getOpt "queryObj" = some payload)
    (ht : cfg.getOpt "tableIdForQuery" = some tid)
    (hok : ¬(400 ≤ r.status ∧ r.status < 600))
    (hfmt : fmtOf payload = some f) (hf1 : f ≠ "csv") (hf2 : f ≠ "px") :
    (runP pc (some cfg) (some r)).error = none ∧
    writtenFiles (runP pc (some cfg) (some r)) = [] ∧
    printedLines (runP pc (some cfg) (some r)) = [pc.unknownMsg, r.text] :=
  fallback_effects pc cfg payload tid r f hq ht hok hfmt hf1 hf2

/-- C7 witness: a run declaring the unrecognized format `xml`. -/
theorem c7_unknown_format_witness :
    (runP conf1 (some (mkCfg "xml" "T7")) (some ⟨200, "BODY7"⟩)).error = none ∧
    writtenFiles (runP conf1 (some (mkCfg "xml" "T7")) (some ⟨200, "BODY7"⟩)) = [] ∧
    printedLines (runP conf1 (some (mkCfg "xml" "T7")) (some ⟨200, "BODY7"⟩))
      = [conf1.unknownMsg, "BODY7"] :=
  c7_unknown_format conf1 (mkCfg "xml" "T7")
    (Json.obj [("response", Json.obj [("format", Json.str "xml")])])
    (Json.str "T7") ⟨200, "BODY7"⟩ "xml"
    rfl rfl (by decide) (by decide) (by decide) (by decide)

/-- C8: a PX-format run writes exactly one file, named
`<tableIdForQuery>.px` in the output directory, containing the response
body unmodified. -/
theorem c8_px_passthrough (pc : PipeConf) (cfg payload : Json) (id : String)
    (r : Fetched)
    (hq : cfg.getOpt "queryObj" = some payload)
    (ht : cfg.getOpt "tableIdForQuery" = some (Json.str id))
    (hok : ¬(400 ≤ r.status ∧ r.status < 600))
    (hfmt : fmtOf payload = some "px") :
    (runP pc (some cfg) (some r)).error = none ∧
    writtenFiles (runP pc (some cfg) (some r))
      = [("data/" ++ id ++ ".px", r.text)] := by
  rw [runP_px pc cfg payload (Json.str id) r hq ht hok hfmt]
  exact ⟨rfl, rfl⟩

/-- C8 witness: the spec scenario with table identifier `BE0101N1`. -/
theorem c8_px_passthrough_witness :
    (runP conf2 (some (mkCfg "px" "BE0101N1")) (some ⟨200, "PX-AXIS BODY"⟩)).error
      = none ∧
    writtenFiles (runP conf2 (some (mkCfg "px" "BE0101N1")) (some ⟨200, "PX-AXIS BODY"⟩))
      = [("data/BE0101N1.px", "PX-AXIS BODY")] :=
  c8_px_passthrough conf2 (mkCfg "px" "BE0101N1")
    (Json.obj [("response", Json.obj [("format", Json.str "px")])])
    "BE0101N1" ⟨200, "PX-AXIS BODY"⟩ rfl rfl (by decide) (by decide)

/-- C9: when the payload has no `response` key, or its `response` object
has no `format` key, the format string defaults to the empty string and
the run takes the unrecognized-format fallback — it prints the raw body,
writes no file and raises no error. -/
theorem c9_missing_format_defaults (pc : PipeConf) (cfg tid : Json)
    (kvs : List (String × Json)) (r : Fetched)
    (hq : cfg.getOpt "queryObj" = some (Json.obj kvs))
    (ht : cfg.getOpt "tableIdForQuery" = some tid)
    (hok : ¬(400 ≤ r.status ∧ r.status < 600))
    (h : kvs.lookup "response" = none ∨
        ∃ rkvs, kvs.lookup "response" = some (Json.obj rkvs)
          ∧ rkvs.lookup "format" = none) :
    fmtOf (Json.obj kvs) = some "" ∧
    (runP pc (some cfg) (some r)).error = none ∧
    writtenFiles (runP pc (some cfg) (some r)) = [] ∧
    printedLines (runP pc (some cfg) (some r)) = [pc.unknownMsg, r.text] := by
  have hfmt : fmtOf (Json.obj kvs) = some "" := by
    rcases h with h | ⟨rkvs, h, h2⟩
    · simp only [fmtOf, h, Option.getD_none, List.lookup_nil]
      rfl
    · simp only [fmtOf, h, Option.getD_some, h2, Option.getD_none]
      rfl
  have hrest := fallback_effects pc cfg (Json.obj kvs) tid r "" hq ht hok hfmt
    (by decide) (by decide)
  exact ⟨hfmt, hrest⟩

/-- C9 witness: a payload whose `response` object lacks the `format`
key. -/
theorem c9_missing_format_defaults_witness :
    fmtOf (Json.obj [("response", Json.obj [("query", Json.str "q")])]) = some "" ∧
    (runP conf2 (some (Json.obj
        [("queryObj", Json.obj [("response", Json.obj [("query", Json.str "q")])]),
         ("tableIdForQuery", Json.str "T9")])) (some ⟨200, "BODY9"⟩)).error = none ∧
    writtenFiles (runP conf2 (some (Json.obj
        [("queryObj", Json.obj [("response", Json.obj [("query", Json.str "q")])]),
         ("tableIdForQuery", Json.str "T9")])) (some ⟨200, "BODY9"⟩)) = [] ∧
    printedLines (runP conf2 (some (Json.obj
        [("queryObj", Json.obj [("response", Json.obj [("query", Json.str "q")])]),
         ("tableIdForQuery", Json.str "T9")])) (some ⟨200, "BODY9"⟩))
      = [conf2.unknownMsg, "BODY9"] :=
  c9_missing_format_defaults conf2
    (Json.obj
      [("queryObj", Json.obj [("response", Json.obj [("query", Json.str "q")])]),
       ("tableIdForQuery", Json.str "T9")])
    (Json.str "T9") [("response", Json.obj [("query", Json.str "q")])]
    ⟨200, "BODY9"⟩ rfl rfl (by decide)
    (Or.inr ⟨[("query", Json.str "q")], rfl, rfl⟩)

/-- C10: with a valid config and a survived fetch, the direct-estimate
pipeline creates the output directory whatever the declared format is —
also on the unrecognized-format path — while the population-density
pipeline, whose directory creation sits inside the `csv` and `px`
branches, leaves the filesystem untouched on an unrecognized-format run:
no directory is created and no file is written. -/
theorem c10_mkdir_divergence (cfg payload tid : Json) (r : Fetched) (f : String)
    (hq : cfg.getOpt "queryObj" = some payload)
    (ht : cfg.getOpt "tableIdForQuery" = some tid)
    (hok : ¬(400 ≤ r.status ∧ r.status < 600))
    (hfmt : fmtOf payload = some f) :
    madeDirs (runP conf1 (some cfg) (some r)) = ["data"] ∧
    (f ≠ "csv" → f ≠ "px" →
      madeDirs (runP conf2 (some cfg) (some r)) = [] ∧
      writtenFiles (runP conf2 (some cfg) (some r)) = [] ∧
      (runP conf2 (some cfg) (some r)).error = none) := by
  constructor
  · by_cases h1 : f = "csv"
    · subst h1
      cases hn : csvNormalize conf1 r.text with
      | error e =>
        rw [runP_csv_error conf1 cfg payload tid r e hq ht hok hfmt hn]
        rfl
      | ok t =>
        rw [runP_csv_ok conf1 cfg payload tid r t hq ht hok hfmt hn]
        rfl
    · by_cases h2 : f = "px"
      · subst h2
        rw [runP_px conf1 cfg payload tid r hq ht hok hfmt]
        rfl
      · rw [runP_unknown_fmt conf1 cfg payload tid r f hq ht hok hfmt h1 h2]
        rfl
  · intro h1 h2
    rw [runP_unknown_fmt conf2 cfg payload tid r f hq ht hok hfmt h1 h2]
    exact ⟨rfl, rfl, rfl⟩

/-- C10 witness: an `xml`-format run on both pipelines. -/
theorem c10_mkdir_divergence_witness :
    madeDirs (runP conf1 (some (mkCfg "xml" "TX")) (some ⟨200, "B10"⟩)) = ["data"] ∧
    (("xml" : String) ≠ "csv" → ("xml" : String) ≠ "px" →
      madeDirs (runP conf2 (some (mkCfg "xml" "TX")) (some ⟨200, "B10"⟩)) = [] ∧
      writtenFiles (runP conf2 (some (mkCfg "xml" "TX")) (some ⟨200, "B10"⟩)) = [] ∧
      (runP conf2 (some (mkCfg "xml" "TX")) (some ⟨200, "B10"⟩)).error = none) :=
  c10_mkdir_divergence (mkCfg "xml" "TX")
    (Json.obj [("response", Json.obj [("format", Json.str "xml")])])
    (Json.str "TX") ⟨200, "B10"⟩ "xml" rfl rfl (by decide) (by decide)

end SAE
